import Mathlib

/-!
# Peer-relative scoring pipeline: a shallow embedding

This file embeds the analysis core of the repository (`analyzer.py`) in
Lean 4 and proves the specified properties about it.

Modelling conventions:
* Python values that can appear in a metric record are modelled by `PyVal`:
  a numeric value (`int`/`float`, modelled exactly as a rational), the
  floating-point `nan` sentinel, a string, or `none` (Python `None`).
  Float arithmetic is modelled exactly over `ℚ`; the float literals
  `0.8`, `1.5`, `0.5` of the source become the rationals `4/5`, `3/2`, `1/2`.
* A Python dict is modelled as an association list with unique keys;
  `dict.get` is first-match lookup defaulting to `None`.
* `pandas` floats that may be NaN are modelled as `Option ℚ` with `none`
  playing the role of NaN: every consumer in the source (`pd.notna`,
  `isinstance … and not np.isnan …`) treats NaN and a missing key
  identically, so this collapse is observationally exact.
* `pd.to_numeric(x, errors="coerce")` on a scalar is modelled by
  `toNumeric`; its numeric-string parsing is modelled by `parseDecimal`
  for plain decimal literals (optional sign, digits, optional fraction);
  all other strings coerce to NaN, as in the library.
* Code that can raise a Python exception returns `Except String _`.
-/

/-- A Python scalar value as it may appear in a metric record:
a number (`int`/`float`, NaN excepted), the float NaN, a string, or `None`. -/
inductive PyVal where
  | num (q : ℚ)
  | nan
  | str (s : String)
  | none
  deriving DecidableEq

/-- One entity's metric mapping (a Python dict with unique keys). -/
abbrev MetricRecord := List (String × PyVal)

/-- `record.get(key)`: the stored value, or `None` when the key is absent. -/
def getVal (record : MetricRecord) (key : String) : PyVal :=
  (List.lookup key record).getD PyVal.none

/-- The numeric value of a digit character. -/
def digitVal (c : Char) : Option ℕ :=
  if c.isDigit then some (c.toNat - 48) else Option.none

/-- Reads a digit string as a natural number; `none` on a non-digit. -/
def digitsVal (cs : List Char) : Option ℕ :=
  cs.foldl
    (fun acc c =>
      match acc, digitVal c with
      | some n, some d => some (n * 10 + d)
      | _, _ => Option.none)
    (some 0)

/-- Parses an unsigned decimal literal (digits, optionally a dot and
fraction digits); `none` when the characters are not such a literal. -/
def parseDecimalCore (cs : List Char) : Option ℚ :=
  let ip := cs.takeWhile (fun c => c ≠ '.')
  let rest := cs.dropWhile (fun c => c ≠ '.')
  match rest with
  | [] => if ip.isEmpty then Option.none else (digitsVal ip).map (fun n => (n : ℚ))
  | _ :: frac =>
    if frac.any (fun c => c = '.') then Option.none
    else if ip.isEmpty && frac.isEmpty then Option.none
    else
      match digitsVal ip, digitsVal frac with
      | some n, some f => some ((n : ℚ) + (f : ℚ) / (10 : ℚ) ^ frac.length)
      | _, _ => Option.none

/-- Model of the numeric-string coercion performed by
`pd.to_numeric(·, errors="coerce")`: a signed decimal literal parses to its
value, anything else coerces to NaN (`none`). -/
def parseDecimal (s : String) : Option ℚ :=
  match s.data with
  | [] => Option.none
  | c :: rest =>
    if c = '-' then (parseDecimalCore rest).map (fun q => -q)
    else if c = '+' then parseDecimalCore rest
    else parseDecimalCore (c :: rest)

/-- `pd.to_numeric(v, errors="coerce")` on a scalar: numbers pass through,
NaN/None/non-numeric strings coerce to NaN (`none`). -/
def toNumeric : PyVal → Option ℚ
  | .num q => some q
  | .nan => Option.none
  | .str s => parseDecimal s
  | .none => Option.none

/-- Python `isinstance(v, (int, float))`: true for numbers, including NaN. -/
def isNumberInst : PyVal → Bool
  | .num _ => true
  | .nan => true
  | _ => false

/-- Round to the nearest integer, ties to the even integer
(the rounding used by Python float formatting, modelled over `ℚ`). -/
def roundHalfEven (q : ℚ) : ℤ :=
  let n : ℤ := ⌊q⌋
  let r : ℚ := q - (n : ℚ)
  if r < 1 / 2 then n
  else if 1 / 2 < r then n + 1
  else if n % 2 = 0 then n else n + 1

/-- Left-pads a digit string with zeros to width `d`. -/
def zeroPad (d : ℕ) (s : String) : String :=
  String.mk (List.replicate (d - s.length) '0') ++ s

/-- Python fixed-point formatting of a number with `d` decimals,
as in `"{:.2f}".format(x)`. -/
def formatFixed (q : ℚ) (d : ℕ) : String :=
  let m := (roundHalfEven (|q| * (10 : ℚ) ^ d)).toNat
  (if q < 0 then "-" else "") ++ Nat.repr (m / 10 ^ d) ++
    (if d = 0 then "" else "." ++ zeroPad d (Nat.repr (m % 10 ^ d)))

/-- The two display formats used by the comparison table:
`"{:.2f}"` and `"{:.2%}"`. -/
inductive Fmt where
  | fixed2
  | percent2
  deriving DecidableEq

/-- Applies a display format to a (non-NaN) number. -/
def formatNumber : Fmt → ℚ → String
  | .fixed2, q => formatFixed q 2
  | .percent2, q => formatFixed (q * 100) 2 ++ "%"

/-- What a display format renders for the float NaN. -/
def nanRendered : Fmt → String
  | .fixed2 => "nan"
  | .percent2 => "nan%"

/-- Per-metric peer statistics; `none` models pandas NaN ("absent"). -/
structure PeerStat where
  mean : Option ℚ
  median : Option ℚ
  deriving DecidableEq

/-- Mapping metric name to its peer statistics. -/
abbrev PeerStats := List (String × PeerStat)

/-- `peer_stats.get(metric, dict()).get("mean")`: the mean if the metric is
present (possibly NaN, i.e. `none`), else `None` (also `none`). -/
def statsMean (peer_stats : PeerStats) (metric : String) : Option ℚ :=
  match List.lookup metric peer_stats with
  | some st => st.mean
  | _ => Option.none

/-- The target cell of a comparison row (`analyzer.py` line 67):
formatted when the value is an `int`/`float` instance — including NaN,
which formats as `"nan"` — else the literal `"N/A"`. -/
def targetCellStr (fmt : Fmt) (target_val : PyVal) : String :=
  match target_val with
  | .num q => formatNumber fmt q
  | .nan => nanRendered fmt
  | _ => "N/A"

/-- The peer-mean cell (`analyzer.py` line 68): formatted when the mean is a
number and not NaN, else `"N/A"`. -/
def peerCellStr (fmt : Fmt) (peer_mean : Option ℚ) : String :=
  match peer_mean with
  | some q => formatNumber fmt q
  | _ => "N/A"

/-- The comparison (delta) cell (`analyzer.py` lines 70–74): when the target
is an `int`/`float` instance and the peer mean is a non-NaN number ≠ 0,
renders `(target − peer_mean)/|peer_mean|` as a percentage with one decimal
and a leading `"+"` for a non-negative delta; a NaN target propagates to the
rendered string `"nan%"` (`nan ≥ 0` is false, so no sign); else `"N/A"`. -/
def comparisonCell (target_val : PyVal) (peer_mean : Option ℚ) : String :=
  match target_val, peer_mean with
  | .num t, some m =>
    if m ≠ 0 then
      ((if 0 ≤ (t - m) / |m| then "+" else "") ++ formatFixed ((t - m) / |m| * 100) 1) ++ "%"
    else "N/A"
  | .nan, some m => if m ≠ 0 then "nan" ++ "%" else "N/A"
  | _, _ => "N/A"

/-- Pads a string on the right with spaces to width `w` (Python `:<w`). -/
def padRight (s : String) (w : ℕ) : String :=
  s ++ String.mk (List.replicate (w - s.length) ' ')

/-- The displayed metrics with their formats, in display order. -/
def metrics_to_compare : List (String × Fmt) :=
  [("P/E", .fixed2), ("Forward P/E", .fixed2), ("PEG Ratio", .fixed2),
   ("ROE", .percent2), ("Operating Margin", .percent2), ("Gross Margin", .percent2),
   ("Revenue Growth", .percent2), ("EPS Growth", .percent2), ("Debt/Equity", .fixed2)]

/-- One row of the comparison table (`analyzer.py` lines 63–76). -/
def tableRow (metric : String) (fmt : Fmt) (target_data : MetricRecord)
    (peer_stats : PeerStats) : String :=
  let target_val := getVal target_data metric
  let peer_mean := statsMean peer_stats metric
  "| " ++ padRight metric 18 ++ " | " ++ padRight (targetCellStr fmt target_val) 14 ++
    " | " ++ padRight (peerCellStr fmt peer_mean) 17 ++ " | " ++
    padRight (comparisonCell target_val peer_mean) 18 ++ " |" ++ "\n"

/-- `create_peer_comparison_table` (`analyzer.py` lines 44–78). -/
def create_peer_comparison_table (target_data : MetricRecord)
    (peer_stats : PeerStats) : String :=
  metrics_to_compare.foldl
    (fun acc p => acc ++ tableRow p.1 p.2 target_data peer_stats)
    ("| Metric             | Target Company | Peer Group (Mean) | Comparison vs Mean |" ++ "\n" ++
     "|--------------------|----------------|-------------------|--------------------|" ++ "\n")

/-- The valuation metrics (lower is better). -/
def valuation_metrics : List String := ["P/E", "Forward P/E", "PEG Ratio"]

/-- The fundamental-strength metrics (higher is better). -/
def positive_metrics : List String :=
  ["ROE", "Operating Margin", "Gross Margin", "Revenue Growth", "EPS Growth"]

/-- Valuation band adjustment (`analyzer.py` lines 94–101): applied only when
both sides are numeric and the peer mean is strictly positive. -/
def valuationAdjust (target peer_mean : Option ℚ) : ℤ :=
  match target, peer_mean with
  | some t, some m =>
    if m > 0 then
      if t < m * (4 / 5) then 5
      else if t < m then 2
      else if t > m * (3 / 2) then -5
      else if t > m then -2
      else 0
    else 0
  | _, _ => 0

/-- Strength band adjustment (`analyzer.py` lines 106–113): applied whenever
both sides are numeric — no positivity guard on the peer mean. -/
def strengthAdjust (target peer_mean : Option ℚ) : ℤ :=
  match target, peer_mean with
  | some t, some m =>
    if t > m * (3 / 2) then 7
    else if t > m then 3
    else if t < m * (4 / 5) then -7
    else if t < m then -3
    else 0
  | _, _ => 0

/-- Debt/Equity band adjustment (`analyzer.py` lines 116–122): applied
whenever both sides are numeric — no positivity guard on the peer mean. -/
def debtEquityAdjust (target peer_mean : Option ℚ) : ℤ :=
  match target, peer_mean with
  | some t, some m =>
    if t < m * (1 / 2) then 7
    else if t < m then 3
    else if t > m * (3 / 2) then -7
    else if t > m then -3
    else 0
  | _, _ => 0

/-- `calculate_summary_score` (`analyzer.py` lines 80–124): baseline 50,
valuation then strength then leverage adjustments, final clamp to [0, 100]. -/
def calculate_summary_score (target_data : MetricRecord) (peer_stats : PeerStats) : ℤ :=
  let s0 : ℤ := 50
  let s1 := valuation_metrics.foldl
    (fun acc metric =>
      acc + valuationAdjust (toNumeric (getVal target_data metric)) (statsMean peer_stats metric)) s0
  let s2 := positive_metrics.foldl
    (fun acc metric =>
      acc + strengthAdjust (toNumeric (getVal target_data metric)) (statsMean peer_stats metric)) s1
  let s3 := s2 +
    debtEquityAdjust (toNumeric (getVal target_data "Debt/Equity"))
      (statsMean peer_stats "Debt/Equity")
  max 0 (min 100 s3)

/-- The metrics aggregated by `calculate_peer_stats`. -/
def numeric_metrics : List String :=
  ["P/E", "Forward P/E", "PEG Ratio", "EPS", "EPS Growth",
   "Debt/Equity", "ROE", "Operating Margin", "Gross Margin",
   "Revenue Growth", "Free Cash Flow"]

/-- Sum of a list of rationals. -/
def listSum (xs : List ℚ) : ℚ := xs.foldr (· + ·) 0

/-- Insertion into a sorted list, for the median. -/
def insertSorted (x : ℚ) : List ℚ → List ℚ
  | [] => [x]
  | y :: ys => if x ≤ y then x :: y :: ys else y :: insertSorted x ys

/-- Insertion sort, for the median. -/
def sortList (xs : List ℚ) : List ℚ := xs.foldr insertSorted []

/-- Arithmetic mean of a (nonempty) numeric subset, as `Series.mean()`. -/
def meanOf (xs : List ℚ) : ℚ := listSum xs / xs.length

/-- Statistical median of a (nonempty) numeric subset, as `Series.median()`:
middle element for odd counts, average of the two central ones for even. -/
def medianOf (xs : List ℚ) : ℚ :=
  let s := sortList xs
  let n := s.length
  if n % 2 = 1 then s.getD (n / 2) 0
  else (s.getD (n / 2 - 1) 0 + s.getD (n / 2) 0) / 2

/-- A peer-group mapping: ticker → metric record. -/
abbrev PeerData := List (String × MetricRecord)

/-- Whether the peer DataFrame has a column for `metric`: some peer record
carries the key (possibly with a non-numeric value). -/
def hasColumn (peer_data : PeerData) (metric : String) : Bool :=
  peer_data.any (fun p => (List.lookup metric p.2).isSome)

/-- The numeric subset of the `metric` column after `pd.to_numeric` coercion:
peers lacking the key contribute NaN (dropped), as does every non-numeric
value. -/
def numericColumn (peer_data : PeerData) (metric : String) : List ℚ :=
  peer_data.filterMap (fun p => toNumeric (getVal p.2 metric))

/-- The per-metric loop of `calculate_peer_stats` (`analyzer.py` lines
31–41).  When no peer record carries the key, `df.get(metric)` is `None`,
`pd.to_numeric(None, errors="coerce")` is a NaN *scalar*, and the
`numeric_series.empty` attribute access raises `AttributeError`. -/
def peerStatsGo (peer_data : PeerData) : List String → Except String PeerStats
  | [] => .ok []
  | metric :: rest =>
    if hasColumn peer_data metric then
      let vals := numericColumn peer_data metric
      let st : PeerStat :=
        if vals.isEmpty then ⟨Option.none, Option.none⟩
        else ⟨some (meanOf vals), some (medianOf vals)⟩
      (peerStatsGo peer_data rest).map (fun tail => (metric, st) :: tail)
    else .error "AttributeError: numpy.float64 object has no attribute empty"

/-- `calculate_peer_stats` (`analyzer.py` lines 6–42): empty peer group
returns the empty mapping; otherwise aggregate each metric in order,
propagating the `AttributeError` raised on a fully missing column. -/
def calculate_peer_stats (peer_data : PeerData) : Except String PeerStats :=
  if peer_data.isEmpty then .ok [] else peerStatsGo peer_data numeric_metrics

/-- The successful analysis payload (`analyzer.py` lines 159–163). -/
structure AnalysisResult where
  peer_stats : PeerStats
  comparison_table : String
  summary_score : ℤ
  deriving DecidableEq

/-- The three observably distinct returns of `analyze_with_peers`:
`None` ("no target data"), the error dict ("no peer data"), or the result. -/
inductive AnalyzeOutcome where
  | noTargetData
  | noPeerData
  | success (result : AnalysisResult)
  deriving DecidableEq

/-- `analyze_with_peers` (`analyzer.py` lines 126–165).  Note the Python
truthiness test `if not target_data:` — it also fires on a present but
*empty* record.  Exceptions from the aggregation propagate. -/
def analyze_with_peers (target_ticker : String) (all_data : PeerData) :
    Except String AnalyzeOutcome :=
  match List.lookup target_ticker all_data with
  | Option.none => .ok .noTargetData
  | some target_data =>
    if target_data.isEmpty then .ok .noTargetData
    else
      let peer_data := all_data.filter (fun p => p.1 != target_ticker)
      if peer_data.isEmpty then .ok .noPeerData
      else
        match calculate_peer_stats peer_data with
        | .error e => .error e
        | .ok peer_stats =>
          let cleaned := peer_stats.filter
            (fun p => !(p.2.mean.isNone && p.2.median.isNone))
          .ok (.success
            ⟨cleaned, create_peer_comparison_table target_data peer_stats,
             calculate_summary_score target_data peer_stats⟩)

/-- Smallest element of a (nonempty) list; 0 on the empty list. -/
def listMin : List ℚ → ℚ
  | [] => 0
  | x :: xs => xs.foldl min x

/-- Largest element of a (nonempty) list; 0 on the empty list. -/
def listMax : List ℚ → ℚ
  | [] => 0
  | x :: xs => xs.foldl max x

/-- The valuation adjustment bands in the wording of the spec (section 4.3,
step 2), with two-sided band conditions; to be compared against the ordered
if/elif chain embedded in `valuationAdjust`. -/
def valuationBandsFromSpec (t m : ℚ) : Prop :=
  (t < 4 / 5 * m → valuationAdjust (some t) (some m) = 5) ∧
  (4 / 5 * m ≤ t ∧ t < m → valuationAdjust (some t) (some m) = 2) ∧
  (t > 3 / 2 * m → valuationAdjust (some t) (some m) = -5) ∧
  (m < t ∧ t ≤ 3 / 2 * m → valuationAdjust (some t) (some m) = -2) ∧
  (t = m → valuationAdjust (some t) (some m) = 0)

/-- The delta cell as the spec words it (section 4.2):
`(target − peer_mean)/|peer_mean|` as a percentage with one decimal and an
explicit leading "+" for a non-negative delta. -/
def deltaCellFromSpec (t m : ℚ) : String :=
  (if 0 ≤ (t - m) / |m| then "+" else "") ++ formatFixed ((t - m) / |m| * 100) 1 ++ "%"

/-- Test fixture: a one-peer group carrying every aggregated metric with
value 2. -/
def witnessPeerGroup : PeerData :=
  [("A",
    [("P/E", PyVal.num 2), ("Forward P/E", PyVal.num 2), ("PEG Ratio", PyVal.num 2),
     ("EPS", PyVal.num 2), ("EPS Growth", PyVal.num 2), ("Debt/Equity", PyVal.num 2),
     ("ROE", PyVal.num 2), ("Operating Margin", PyVal.num 2),
     ("Gross Margin", PyVal.num 2), ("Revenue Growth", PyVal.num 2),
     ("Free Cash Flow", PyVal.num 2)])]

/-- Test fixture: the statistics `calculate_peer_stats` computes for
`witnessPeerGroup`. -/
def witnessPeerStats : PeerStats :=
  [("P/E", ⟨some 2, some 2⟩), ("Forward P/E", ⟨some 2, some 2⟩),
   ("PEG Ratio", ⟨some 2, some 2⟩), ("EPS", ⟨some 2, some 2⟩),
   ("EPS Growth", ⟨some 2, some 2⟩), ("Debt/Equity", ⟨some 2, some 2⟩),
   ("ROE", ⟨some 2, some 2⟩), ("Operating Margin", ⟨some 2, some 2⟩),
   ("Gross Margin", ⟨some 2, some 2⟩), ("Revenue Growth", ⟨some 2, some 2⟩),
   ("Free Cash Flow", ⟨some 2, some 2⟩)]

/-- C1: for every target record and peer-stats mapping the summary score is
an integer in [0, 100] — the final clamp floors negatives at 0 and ceils
everything above 100 — and even an extreme target (P/E 10,000× the peer
mean of 20) evaluates without error, to 45. -/
theorem C1_score_in_range (target_data : MetricRecord) (peer_stats : PeerStats) :
    (0 ≤ calculate_summary_score target_data peer_stats ∧
      calculate_summary_score target_data peer_stats ≤ 100) ∧
    calculate_summary_score [("P/E", PyVal.num 200000)]
      [("P/E", ⟨some 20, some 20⟩)] = 45 := by
  refine ⟨⟨?_, ?_⟩, ?_⟩
  · simp only [calculate_summary_score]
    exact le_max_left _ _
  · simp only [calculate_summary_score]
    exact max_le (by norm_num) (min_le_left _ _)
  · simp +decide [calculate_summary_score, valuation_metrics, positive_metrics,
      statsMean, getVal, toNumeric, List.lookup]
    norm_num [valuationAdjust, strengthAdjust, debtEquityAdjust]

/-- C2: for positive peer mean the valuation adjustment realises exactly the
spec's two-sided bands (+5 / +2 / −5 / −2 / 0 at equality) as a
first-match-wins chain; a target at 0.75×peer mean contributes exactly +5,
and a lone target P/E of 10 against a peer mean of 20 scores 55. -/
theorem C2_valuation_bands (t m : ℚ) (hm : 0 < m) :
    valuationBandsFromSpec t m ∧
    valuationAdjust (some (3 / 4 * m)) (some m) = 5 ∧
    calculate_summary_score [("P/E", PyVal.num 10)]
      [("P/E", ⟨some 20, some 20⟩)] = 55 := by
  refine ⟨⟨?_, ?_, ?_, ?_, ?_⟩, ?_, ?_⟩
  · intro h
    simp only [valuationAdjust, if_pos hm]
    split_ifs <;> first | rfl | (exfalso; linarith)
  · rintro ⟨h1, h2⟩
    simp only [valuationAdjust, if_pos hm]
    split_ifs <;> first | rfl | (exfalso; linarith)
  · intro h
    simp only [valuationAdjust, if_pos hm]
    split_ifs <;> first | rfl | (exfalso; linarith)
  · rintro ⟨h1, h2⟩
    simp only [valuationAdjust, if_pos hm]
    split_ifs <;> first | rfl | (exfalso; linarith)
  · intro h
    subst h
    simp only [valuationAdjust, if_pos hm]
    split_ifs <;> first | rfl | (exfalso; linarith)
  · simp only [valuationAdjust, if_pos hm]
    split_ifs <;> first | rfl | (exfalso; linarith)
  · simp +decide [calculate_summary_score, valuation_metrics, positive_metrics,
      statsMean, getVal, toNumeric, List.lookup]
    norm_num [valuationAdjust, strengthAdjust, debtEquityAdjust]

/-- C2 witness: the band characterisation instantiated at target 1,
peer mean 2. -/
theorem C2_valuation_bands_witness :
    (0 : ℚ) < 2 ∧
    (valuationBandsFromSpec 1 2 ∧
      valuationAdjust (some (3 / 4 * 2)) (some 2) = 5 ∧
      calculate_summary_score [("P/E", PyVal.num 10)]
        [("P/E", ⟨some 20, some 20⟩)] = 55) :=
  ⟨by decide, C2_valuation_bands 1 2 (by decide)⟩

/-- C6: the scoring engine contributes nothing for a valuation metric whose
peer mean is ≤ 0, whereas the strength and Debt/Equity chains carry no
positivity guard and do adjust at zero or negative peer means; with peer
mean 0 and non-zero target the delta cell is "N/A" and the lone valuation
metric leaves the score at the baseline 50. -/
theorem C6_guard_asymmetry :
    (∀ t m : ℚ, m ≤ 0 → valuationAdjust (some t) (some m) = 0) ∧
    strengthAdjust (some 1) (some 0) = 7 ∧
    strengthAdjust (some (-1)) (some (-1)) = 7 ∧
    debtEquityAdjust (some 1) (some 0) = -7 ∧
    debtEquityAdjust (some (-1)) (some (-1)) = 7 ∧
    (∀ t : ℚ, t ≠ 0 → comparisonCell (PyVal.num t) (some 0) = "N/A") ∧
    calculate_summary_score [("P/E", PyVal.num 5)]
      [("P/E", ⟨some 0, some 0⟩)] = 50 := by
  refine ⟨?_, ?_, ?_, ?_, ?_, ?_, ?_⟩
  · intro t m h
    simp only [valuationAdjust, if_neg (not_lt.2 h)]
  · norm_num [strengthAdjust]
  · norm_num [strengthAdjust]
  · norm_num [debtEquityAdjust]
  · norm_num [debtEquityAdjust]
  · intro t _
    simp [comparisonCell]
  · simp +decide [calculate_summary_score, valuation_metrics, positive_metrics,
      statsMean, getVal, toNumeric, List.lookup, valuationAdjust,
      strengthAdjust, debtEquityAdjust]

/-- C6 witness: the valuation skip and the delta cell instantiated at
peer mean −2 resp. 0. -/
theorem C6_guard_asymmetry_witness :
    ((-2 : ℚ) ≤ 0 ∧ valuationAdjust (some 3) (some (-2)) = 0) ∧
    ((5 : ℚ) ≠ 0 ∧ comparisonCell (PyVal.num 5) (some 0) = "N/A") :=
  ⟨⟨by decide, C6_guard_asymmetry.1 3 (-2) (by decide)⟩,
   ⟨by decide, C6_guard_asymmetry.2.2.2.2.2.1 5 (by decide)⟩⟩

/-- C10: a numeric-string metric value is coerced to its number by the
scoring engine (so the band chain applies: the lone string P/E "10" against
mean 20 scores 55, not 50) while the table formatter fails its
`isinstance` check on the same value and renders "N/A" in both the target
and the comparison cell. -/
theorem C10_numeric_string_mismatch :
    (∀ (s : String) (q : ℚ), parseDecimal s = some q →
      toNumeric (PyVal.str s) = some q ∧
      isNumberInst (PyVal.str s) = false ∧
      (∀ fmt : Fmt, targetCellStr fmt (PyVal.str s) = "N/A") ∧
      (∀ mean : Option ℚ, comparisonCell (PyVal.str s) mean = "N/A")) ∧
    calculate_summary_score [("P/E", PyVal.str "10")]
      [("P/E", ⟨some 20, some 20⟩)] = 55 ∧
    targetCellStr Fmt.fixed2 (getVal [("P/E", PyVal.str "10")] "P/E") = "N/A" ∧
    comparisonCell (getVal [("P/E", PyVal.str "10")] "P/E")
      (statsMean [("P/E", ⟨some 20, some 20⟩)] "P/E") = "N/A" := by
  refine ⟨?_, ?_, ?_, ?_⟩
  · intro s q h
    refine ⟨by simp [toNumeric, h], rfl, ?_, ?_⟩
    · intro fmt
      rfl
    · intro mean
      cases mean <;> rfl
  · have hp : parseDecimal "10" = some 10 := by
      simp +decide [parseDecimal, parseDecimalCore, digitsVal, digitVal]
    simp +decide [calculate_summary_score, valuation_metrics, positive_metrics,
      statsMean, getVal, toNumeric, List.lookup, hp]
    norm_num [valuationAdjust, strengthAdjust, debtEquityAdjust]
  · rfl
  · rfl

/-- C10 witness: the mismatch instantiated at the numeric string "12.5". -/
theorem C10_numeric_string_mismatch_witness :
    parseDecimal "12.5" = some (25 / 2) ∧
    (toNumeric (PyVal.str "12.5") = some (25 / 2) ∧
      isNumberInst (PyVal.str "12.5") = false ∧
      (∀ fmt : Fmt, targetCellStr fmt (PyVal.str "12.5") = "N/A") ∧
      (∀ mean : Option ℚ, comparisonCell (PyVal.str "12.5") mean = "N/A")) := by
  have hp : parseDecimal "12.5" = some (25 / 2) := by
    simp +decide [parseDecimal, parseDecimalCore, digitsVal, digitVal]
    norm_num
  exact ⟨hp, C10_numeric_string_mismatch.1 "12.5" (25 / 2) hp⟩

/-- A rendered percentage ends in the percent sign, so it is never the
placeholder "N/A". -/
theorem append_percent_ne_NA (s : String) : s ++ "%" ≠ "N/A" := by
  intro h
  have hm : ('%' : Char) ∈ (s ++ "%").data := by
    rw [String.data_append]
    exact List.mem_append.mpr (Or.inr (by decide))
  rw [h] at hm
  exact absurd hm (by decide)

/-- C4 (amended): a target value that fails the `isinstance` type check
(string or `None`) renders "N/A" in the target and comparison cells, and an
absent/NaN peer mean renders "N/A" in the peer cell; but the NaN guard is
missing on the target side, so a NaN target renders "nan" (resp. "nan%")
in the target cell and, against a valid non-zero mean, "nan%" in the
comparison cell. -/
theorem C4_target_type_guard_only (fmt : Fmt) (v : PyVal) (mean : Option ℚ)
    (h : isNumberInst v = false) :
    (targetCellStr fmt v = "N/A" ∧ comparisonCell v mean = "N/A" ∧
      peerCellStr fmt Option.none = "N/A") ∧
    (targetCellStr Fmt.fixed2 PyVal.nan = "nan" ∧
      targetCellStr Fmt.percent2 PyVal.nan = "nan%" ∧
      comparisonCell PyVal.nan (some 1) = "nan%") := by
  refine ⟨⟨?_, ?_, rfl⟩, rfl, rfl, by decide⟩
  · cases v <;> first | rfl | simp [isNumberInst] at h
  · cases v <;> cases mean <;> first | rfl | simp [isNumberInst] at h

/-- C4 witness: the guard instantiated at a string target. -/
theorem C4_target_type_guard_only_witness :
    isNumberInst (PyVal.str "x") = false ∧
    ((targetCellStr Fmt.fixed2 (PyVal.str "x") = "N/A" ∧
        comparisonCell (PyVal.str "x") (some 1) = "N/A" ∧
        peerCellStr Fmt.fixed2 Option.none = "N/A") ∧
      (targetCellStr Fmt.fixed2 PyVal.nan = "nan" ∧
        targetCellStr Fmt.percent2 PyVal.nan = "nan%" ∧
        comparisonCell PyVal.nan (some 1) = "nan%")) :=
  ⟨rfl, C4_target_type_guard_only Fmt.fixed2 (PyVal.str "x") (some 1) rfl⟩

/-- C4 counterexample: a NaN target — an absent value per the data model —
renders "nan", not "N/A", in the target cell, and "nan%" in the comparison
cell against the valid peer mean 1: the claimed NaN guard on the target
side does not exist in the code. -/
theorem C4_counterexample_nan_target :
    targetCellStr Fmt.fixed2 PyVal.nan ≠ "N/A" ∧
    comparisonCell PyVal.nan (some 1) ≠ "N/A" := by
  constructor <;> decide

/-- C7 (amended): for numeric target and non-zero numeric peer mean the
comparison cell is exactly the spec's rendered delta; the cell is "N/A"
exactly when the target fails the int/float type check, the peer mean is
absent/NaN, or the peer mean is 0 — a NaN target passes the type check and
renders "nan%" instead of "N/A". -/
theorem C7_delta_cell (t m : ℚ) (hm : m ≠ 0) :
    comparisonCell (PyVal.num t) (some m) = deltaCellFromSpec t m ∧
    (∀ (v : PyVal) (mean : Option ℚ),
      comparisonCell v mean = "N/A" ↔
        isNumberInst v = false ∨ mean = Option.none ∨ mean = some 0) ∧
    comparisonCell PyVal.nan (some 2) = "nan%" := by
  refine ⟨?_, ?_, by decide⟩
  · simp [comparisonCell, deltaCellFromSpec, hm]
  · intro v mean
    cases v with
    | num t' =>
      cases mean with
      | none => simp [comparisonCell, isNumberInst]
      | some m' =>
        by_cases hm' : m' = 0
        · subst hm'
          simp [comparisonCell, isNumberInst]
        · simp only [comparisonCell, if_pos hm', isNumberInst]
          constructor
          · intro h
            exact absurd h (append_percent_ne_NA _)
          · rintro (h | h | h) <;> simp_all
    | nan =>
      cases mean with
      | none => simp [comparisonCell, isNumberInst]
      | some m' =>
        by_cases hm' : m' = 0
        · subst hm'
          simp [comparisonCell, isNumberInst]
        · simp only [comparisonCell, if_pos hm', isNumberInst]
          constructor
          · intro h
            exact absurd h (by decide)
          · rintro (h | h | h) <;> simp_all
    | str s => cases mean <;> simp [comparisonCell, isNumberInst]
    | none => cases mean <;> simp [comparisonCell, isNumberInst]

/-- C7 witness: the delta cell instantiated at target 25, peer mean 20. -/
theorem C7_delta_cell_witness :
    (20 : ℚ) ≠ 0 ∧
    (comparisonCell (PyVal.num 25) (some 20) = deltaCellFromSpec 25 20 ∧
      (∀ (v : PyVal) (mean : Option ℚ),
        comparisonCell v mean = "N/A" ↔
          isNumberInst v = false ∨ mean = Option.none ∨ mean = some 0) ∧
      comparisonCell PyVal.nan (some 2) = "nan%") :=
  ⟨by decide, C7_delta_cell 25 20 (by decide)⟩

/-- C7 counterexample: the NaN sentinel — an absent value per the data
model, which `pd.to_numeric` coerces to absent — against the valid non-zero
peer mean 2 renders "nan%", not "N/A": the cell is not "N/A" in every
absent-target case. -/
theorem C7_counterexample_nan_target :
    toNumeric PyVal.nan = Option.none ∧
    comparisonCell PyVal.nan (some 2) ≠ "N/A" ∧
    comparisonCell PyVal.nan (some 2) = "nan%" :=
  ⟨rfl, by decide, by decide⟩

/-- C5 (amended): `analyze_with_peers` returns the "no target data" signal
(`None`) exactly when the target ticker is absent **or present with an
empty — hence falsy — record**; it returns the distinct "no peer data"
signal exactly when the target has a non-empty record and no other entry
exists; and the two signals and a successful result are pairwise
distinguishable. -/
theorem C5_signal_characterisation (target_ticker : String) (all_data : PeerData) :
    (analyze_with_peers target_ticker all_data = Except.ok AnalyzeOutcome.noTargetData ↔
      (List.lookup target_ticker all_data = Option.none ∨
        List.lookup target_ticker all_data = some [])) ∧
    (analyze_with_peers target_ticker all_data = Except.ok AnalyzeOutcome.noPeerData ↔
      ((∃ td, List.lookup target_ticker all_data = some td ∧ td ≠ []) ∧
        all_data.filter (fun p => p.1 != target_ticker) = [])) ∧
    (∀ r : AnalysisResult,
      AnalyzeOutcome.success r ≠ AnalyzeOutcome.noTargetData ∧
      AnalyzeOutcome.success r ≠ AnalyzeOutcome.noPeerData ∧
      AnalyzeOutcome.noTargetData ≠ AnalyzeOutcome.noPeerData) := by
  have hdis : ∀ r : AnalysisResult,
      AnalyzeOutcome.success r ≠ AnalyzeOutcome.noTargetData ∧
      AnalyzeOutcome.success r ≠ AnalyzeOutcome.noPeerData ∧
      AnalyzeOutcome.noTargetData ≠ AnalyzeOutcome.noPeerData := by
    intro r
    refine ⟨by simp, by simp, by simp⟩
  cases hlk : List.lookup target_ticker all_data with
  | none =>
    refine ⟨by simp [analyze_with_peers, hlk], by simp [analyze_with_peers, hlk], hdis⟩
  | some td =>
    by_cases htd : td = []
    · subst htd
      refine ⟨by simp [analyze_with_peers, hlk], by simp [analyze_with_peers, hlk], hdis⟩
    · have htd' : td.isEmpty = false := by
        simpa [List.isEmpty_iff] using htd
      by_cases hp : all_data.filter (fun p => p.1 != target_ticker) = []
      · refine ⟨?_, ?_, hdis⟩
        · simp [analyze_with_peers, hlk, htd', hp, htd]
        · simp [analyze_with_peers, hlk, htd', hp, htd]
      · have hp' : (all_data.filter (fun p => p.1 != target_ticker)).isEmpty = false := by
          simpa [List.isEmpty_iff] using hp
        cases hcs : calculate_peer_stats (all_data.filter (fun p => p.1 != target_ticker)) with
        | error e =>
          refine ⟨?_, ?_, hdis⟩ <;>
            simp [analyze_with_peers, hlk, htd', hp', hcs, htd, hp]
        | ok stats =>
          refine ⟨?_, ?_, hdis⟩ <;>
            simp [analyze_with_peers, hlk, htd', hp', hcs, htd, hp]

/-- C5 witness: the characterisation instantiated at a concrete mapping. -/
theorem C5_signal_characterisation_witness :
    (analyze_with_peers "AAPL" [("MSFT", [("P/E", PyVal.num 1)])] =
        Except.ok AnalyzeOutcome.noTargetData ↔
      (List.lookup "AAPL" [("MSFT", [("P/E", PyVal.num 1)])] = Option.none ∨
        List.lookup "AAPL" [("MSFT", [("P/E", PyVal.num 1)])] = some [])) ∧
    (analyze_with_peers "AAPL" [("MSFT", [("P/E", PyVal.num 1)])] =
        Except.ok AnalyzeOutcome.noPeerData ↔
      ((∃ td, List.lookup "AAPL" [("MSFT", [("P/E", PyVal.num 1)])] = some td ∧ td ≠ []) ∧
        [("MSFT", [("P/E", PyVal.num 1)])].filter (fun p => p.1 != "AAPL") = [])) ∧
    (∀ r : AnalysisResult,
      AnalyzeOutcome.success r ≠ AnalyzeOutcome.noTargetData ∧
      AnalyzeOutcome.success r ≠ AnalyzeOutcome.noPeerData ∧
      AnalyzeOutcome.noTargetData ≠ AnalyzeOutcome.noPeerData) :=
  C5_signal_characterisation "AAPL" [("MSFT", [("P/E", PyVal.num 1)])]

/-- C5 counterexample: a target that **is present** in the mapping — with an
empty record — still produces the "no target data" signal, because the code
tests Python truthiness (`if not target_data:`), not key presence. -/
theorem C5_counterexample_present_but_empty :
    analyze_with_peers "AAPL" [("AAPL", []), ("MSFT", [("P/E", PyVal.num 1)])] =
      Except.ok AnalyzeOutcome.noTargetData ∧
    List.lookup "AAPL" [("AAPL", ([] : MetricRecord)), ("MSFT", [("P/E", PyVal.num 1)])] =
      some [] :=
  ⟨rfl, rfl⟩

/-- At equality, no valuation band fires (the positivity guard already
rules out nonpositive means). -/
theorem valuationAdjust_self (q : ℚ) :
    valuationAdjust (some q) (some q) = 0 := by
  simp only [valuationAdjust]
  split_ifs <;> first | rfl | (exfalso; linarith)

/-- At equality with a nonnegative peer mean, no strength band fires. -/
theorem strengthAdjust_self (q : ℚ) (hq : 0 ≤ q) :
    strengthAdjust (some q) (some q) = 0 := by
  simp only [strengthAdjust]
  split_ifs <;> first | rfl | (exfalso; linarith)

/-- At equality with a nonnegative peer mean, no leverage band fires. -/
theorem debtEquityAdjust_self (q : ℚ) (hq : 0 ≤ q) :
    debtEquityAdjust (some q) (some q) = 0 := by
  simp only [debtEquityAdjust]
  split_ifs <;> first | rfl | (exfalso; linarith)

/-- C8 (amended): when the target equals the peer mean on every scored
metric, all present and numeric **and nonnegative**, no band fires and the
summary score is exactly 50.  (With a negative common value the strict
bands do fire — see the counterexample — so nonnegativity is required.) -/
theorem C8_parity_at_equality (target_data : MetricRecord) (peer_stats : PeerStats)
    (h : ∀ metric,
      (metric ∈ valuation_metrics ∨ metric ∈ positive_metrics ∨ metric = "Debt/Equity") →
      ∃ q : ℚ, 0 ≤ q ∧ toNumeric (getVal target_data metric) = some q ∧
        statsMean peer_stats metric = some q) :
    calculate_summary_score target_data peer_stats = 50 := by
  obtain ⟨q1, hq1, ht1, hm1⟩ := h "P/E" (Or.inl (by decide))
  obtain ⟨q2, hq2, ht2, hm2⟩ := h "Forward P/E" (Or.inl (by decide))
  obtain ⟨q3, hq3, ht3, hm3⟩ := h "PEG Ratio" (Or.inl (by decide))
  obtain ⟨q4, hq4, ht4, hm4⟩ := h "ROE" (Or.inr (Or.inl (by decide)))
  obtain ⟨q5, hq5, ht5, hm5⟩ := h "Operating Margin" (Or.inr (Or.inl (by decide)))
  obtain ⟨q6, hq6, ht6, hm6⟩ := h "Gross Margin" (Or.inr (Or.inl (by decide)))
  obtain ⟨q7, hq7, ht7, hm7⟩ := h "Revenue Growth" (Or.inr (Or.inl (by decide)))
  obtain ⟨q8, hq8, ht8, hm8⟩ := h "EPS Growth" (Or.inr (Or.inl (by decide)))
  obtain ⟨q9, hq9, ht9, hm9⟩ := h "Debt/Equity" (Or.inr (Or.inr rfl))
  simp only [calculate_summary_score, valuation_metrics, positive_metrics,
    List.foldl_cons, List.foldl_nil, ht1, hm1, ht2, hm2, ht3, hm3, ht4, hm4,
    ht5, hm5, ht6, hm6, ht7, hm7, ht8, hm8, ht9, hm9,
    valuationAdjust_self q1, valuationAdjust_self q2, valuationAdjust_self q3,
    strengthAdjust_self _ hq4, strengthAdjust_self _ hq5, strengthAdjust_self _ hq6,
    strengthAdjust_self _ hq7, strengthAdjust_self _ hq8,
    debtEquityAdjust_self _ hq9, add_zero]
  rfl

/-- C8 witness: the parity result instantiated at a record and stats that
agree (value 1) on all nine scored metrics. -/
theorem C8_parity_at_equality_witness :
    (∀ metric,
      (metric ∈ valuation_metrics ∨ metric ∈ positive_metrics ∨ metric = "Debt/Equity") →
      ∃ q : ℚ, 0 ≤ q ∧
        toNumeric (getVal
          [("P/E", PyVal.num 1), ("Forward P/E", PyVal.num 1), ("PEG Ratio", PyVal.num 1),
           ("ROE", PyVal.num 1), ("Operating Margin", PyVal.num 1),
           ("Gross Margin", PyVal.num 1), ("Revenue Growth", PyVal.num 1),
           ("EPS Growth", PyVal.num 1), ("Debt/Equity", PyVal.num 1)] metric) = some q ∧
        statsMean
          [("P/E", ⟨some 1, some 1⟩), ("Forward P/E", ⟨some 1, some 1⟩),
           ("PEG Ratio", ⟨some 1, some 1⟩), ("ROE", ⟨some 1, some 1⟩),
           ("Operating Margin", ⟨some 1, some 1⟩), ("Gross Margin", ⟨some 1, some 1⟩),
           ("Revenue Growth", ⟨some 1, some 1⟩), ("EPS Growth", ⟨some 1, some 1⟩),
           ("Debt/Equity", ⟨some 1, some 1⟩)] metric = some q) ∧
    calculate_summary_score
      [("P/E", PyVal.num 1), ("Forward P/E", PyVal.num 1), ("PEG Ratio", PyVal.num 1),
       ("ROE", PyVal.num 1), ("Operating Margin", PyVal.num 1),
       ("Gross Margin", PyVal.num 1), ("Revenue Growth", PyVal.num 1),
       ("EPS Growth", PyVal.num 1), ("Debt/Equity", PyVal.num 1)]
      [("P/E", ⟨some 1, some 1⟩), ("Forward P/E", ⟨some 1, some 1⟩),
       ("PEG Ratio", ⟨some 1, some 1⟩), ("ROE", ⟨some 1, some 1⟩),
       ("Operating Margin", ⟨some 1, some 1⟩), ("Gross Margin", ⟨some 1, some 1⟩),
       ("Revenue Growth", ⟨some 1, some 1⟩), ("EPS Growth", ⟨some 1, some 1⟩),
       ("Debt/Equity", ⟨some 1, some 1⟩)] = 50 := by
  have hh : ∀ metric,
      (metric ∈ valuation_metrics ∨ metric ∈ positive_metrics ∨ metric = "Debt/Equity") →
      ∃ q : ℚ, 0 ≤ q ∧
        toNumeric (getVal
          [("P/E", PyVal.num 1), ("Forward P/E", PyVal.num 1), ("PEG Ratio", PyVal.num 1),
           ("ROE", PyVal.num 1), ("Operating Margin", PyVal.num 1),
           ("Gross Margin", PyVal.num 1), ("Revenue Growth", PyVal.num 1),
           ("EPS Growth", PyVal.num 1), ("Debt/Equity", PyVal.num 1)] metric) = some q ∧
        statsMean
          [("P/E", ⟨some 1, some 1⟩), ("Forward P/E", ⟨some 1, some 1⟩),
           ("PEG Ratio", ⟨some 1, some 1⟩), ("ROE", ⟨some 1, some 1⟩),
           ("Operating Margin", ⟨some 1, some 1⟩), ("Gross Margin", ⟨some 1, some 1⟩),
           ("Revenue Growth", ⟨some 1, some 1⟩), ("EPS Growth", ⟨some 1, some 1⟩),
           ("Debt/Equity", ⟨some 1, some 1⟩)] metric = some q := by
    intro metric hmem
    rcases hmem with hmem | hmem | hmem
    · simp only [valuation_metrics] at hmem
      fin_cases hmem <;> exact ⟨1, by decide, rfl, rfl⟩
    · simp only [positive_metrics] at hmem
      fin_cases hmem <;> exact ⟨1, by decide, rfl, rfl⟩
    · subst hmem
      exact ⟨1, by decide, rfl, rfl⟩
  exact ⟨hh, C8_parity_at_equality _ _ hh⟩

/-- C8 counterexample: target equal to the peer mean (value −1, present and
numeric) on **all nine** scored metrics scores 92, not 50 — with a negative
common value the strict bands `target > 1.5×peer_mean` (strength) and
`target < 0.5×peer_mean` (leverage) both fire at equality. -/
theorem C8_counterexample_negative_equality :
    calculate_summary_score
      [("P/E", PyVal.num (-1)), ("Forward P/E", PyVal.num (-1)), ("PEG Ratio", PyVal.num (-1)),
       ("ROE", PyVal.num (-1)), ("Operating Margin", PyVal.num (-1)),
       ("Gross Margin", PyVal.num (-1)), ("Revenue Growth", PyVal.num (-1)),
       ("EPS Growth", PyVal.num (-1)), ("Debt/Equity", PyVal.num (-1))]
      [("P/E", ⟨some (-1), some (-1)⟩), ("Forward P/E", ⟨some (-1), some (-1)⟩),
       ("PEG Ratio", ⟨some (-1), some (-1)⟩), ("ROE", ⟨some (-1), some (-1)⟩),
       ("Operating Margin", ⟨some (-1), some (-1)⟩),
       ("Gross Margin", ⟨some (-1), some (-1)⟩),
       ("Revenue Growth", ⟨some (-1), some (-1)⟩),
       ("EPS Growth", ⟨some (-1), some (-1)⟩),
       ("Debt/Equity", ⟨some (-1), some (-1)⟩)] = 92 := by
  simp +decide [calculate_summary_score, valuation_metrics, positive_metrics,
    statsMean, getVal, toNumeric, List.lookup]
  norm_num [valuationAdjust, strengthAdjust, debtEquityAdjust]

/-- C3: the aggregation **does** raise on a peer group in which no peer
record carries a given metric key: `df.get` yields `None`, the coerced
scalar is NaN, and the `.empty` attribute access raises `AttributeError`
(here at the first metric, "P/E").  The empty peer group itself returns
the empty mapping without error, as claimed. -/
theorem C3_missing_column_raises :
    calculate_peer_stats [("MSFT", [])] =
      Except.error "AttributeError: numpy.float64 object has no attribute empty" ∧
    hasColumn [("MSFT", [])] "P/E" = false ∧
    calculate_peer_stats [] = Except.ok [] :=
  ⟨rfl, rfl, rfl⟩

theorem foldl_min_le_init (xs : List ℚ) : ∀ a : ℚ, xs.foldl min a ≤ a := by
  induction xs with
  | nil => intro a; simp
  | cons x t ih =>
    intro a
    simp only [List.foldl_cons]
    exact le_trans (ih (min a x)) (min_le_left a x)

theorem foldl_min_le_mem (xs : List ℚ) : ∀ a y : ℚ, y ∈ xs → xs.foldl min a ≤ y := by
  induction xs with
  | nil => intro a y hy; simp at hy
  | cons x t ih =>
    intro a y hy
    simp only [List.foldl_cons]
    rcases List.mem_cons.mp hy with rfl | hy'
    · exact le_trans (foldl_min_le_init t (min a y)) (min_le_right a y)
    · exact ih (min a x) y hy'

theorem listMin_le_mem (xs : List ℚ) (y : ℚ) (hy : y ∈ xs) : listMin xs ≤ y := by
  cases xs with
  | nil => simp at hy
  | cons x t =>
    rcases List.mem_cons.mp hy with rfl | hy'
    · exact foldl_min_le_init t y
    · exact foldl_min_le_mem t x y hy'

theorem init_le_foldl_max (xs : List ℚ) : ∀ a : ℚ, a ≤ xs.foldl max a := by
  induction xs with
  | nil => intro a; simp
  | cons x t ih =>
    intro a
    simp only [List.foldl_cons]
    exact le_trans (le_max_left a x) (ih (max a x))

theorem mem_le_foldl_max (xs : List ℚ) : ∀ a y : ℚ, y ∈ xs → y ≤ xs.foldl max a := by
  induction xs with
  | nil => intro a y hy; simp at hy
  | cons x t ih =>
    intro a y hy
    simp only [List.foldl_cons]
    rcases List.mem_cons.mp hy with rfl | hy'
    · exact le_trans (le_max_right a y) (init_le_foldl_max t (max a y))
    · exact ih (max a x) y hy'

theorem mem_le_listMax (xs : List ℚ) (y : ℚ) (hy : y ∈ xs) : y ≤ listMax xs := by
  cases xs with
  | nil => simp at hy
  | cons x t =>
    rcases List.mem_cons.mp hy with rfl | hy'
    · exact init_le_foldl_max t y
    · exact mem_le_foldl_max t x y hy'

theorem le_listSum (xs : List ℚ) (a : ℚ) (h : ∀ y ∈ xs, a ≤ y) :
    (xs.length : ℚ) * a ≤ listSum xs := by
  induction xs with
  | nil => simp [listSum]
  | cons x t ih =>
    have hx := h x (List.mem_cons_self x t)
    have ht := ih (fun y hy => h y (List.mem_cons_of_mem x hy))
    simp only [listSum, List.foldr_cons, List.length_cons] at *
    have hcast : ((t.length + 1 : ℕ) : ℚ) * a = (t.length : ℚ) * a + a := by
      push_cast
      ring
    rw [hcast]
    linarith

theorem listSum_le (xs : List ℚ) (b : ℚ) (h : ∀ y ∈ xs, y ≤ b) :
    listSum xs ≤ (xs.length : ℚ) * b := by
  induction xs with
  | nil => simp [listSum]
  | cons x t ih =>
    have hx := h x (List.mem_cons_self x t)
    have ht := ih (fun y hy => h y (List.mem_cons_of_mem x hy))
    simp only [listSum, List.foldr_cons, List.length_cons] at *
    have hcast : ((t.length + 1 : ℕ) : ℚ) * b = (t.length : ℚ) * b + b := by
      push_cast
      ring
    rw [hcast]
    linarith

/-- The arithmetic mean of a nonempty list lies within its min and max. -/
theorem meanOf_bounds (xs : List ℚ) (hne : xs ≠ []) :
    listMin xs ≤ meanOf xs ∧ meanOf xs ≤ listMax xs := by
  have hlen : (0 : ℚ) < xs.length := by
    cases xs with
    | nil => exact absurd rfl hne
    | cons x t =>
      have : 0 < (x :: t).length := List.length_pos.mpr (by simp)
      exact_mod_cast this
  constructor
  · have h1 := le_listSum xs (listMin xs) (fun y hy => listMin_le_mem xs y hy)
    rw [meanOf, le_div_iff₀ hlen, mul_comm]
    exact h1
  · have h2 := listSum_le xs (listMax xs) (fun y hy => mem_le_listMax xs y hy)
    rw [meanOf, div_le_iff₀ hlen, mul_comm]
    exact h2

/-- Every entry produced by a successful run of the aggregation loop is
exactly the statistic of its metric's numeric column. -/
theorem peerStatsGo_mem (peer_data : PeerData) :
    ∀ (ms : List String) (stats : PeerStats),
      peerStatsGo peer_data ms = Except.ok stats →
      ∀ metric st, (metric, st) ∈ stats →
        st = (if (numericColumn peer_data metric).isEmpty then
                ⟨Option.none, Option.none⟩
              else
                ⟨some (meanOf (numericColumn peer_data metric)),
                 some (medianOf (numericColumn peer_data metric))⟩ : PeerStat) := by
  intro ms
  induction ms with
  | nil =>
    intro stats h metric st hmem
    simp only [peerStatsGo] at h
    injection h with h'
    subst h'
    simp at hmem
  | cons m rest ih =>
    intro stats h metric st hmem
    simp only [peerStatsGo] at h
    by_cases hc : hasColumn peer_data m
    · rw [if_pos hc] at h
      cases hgo : peerStatsGo peer_data rest with
      | error e =>
        rw [hgo] at h
        simp [Except.map] at h
      | ok tail =>
        rw [hgo] at h
        simp only [Except.map] at h
        injection h with h'
        subst h'
        rcases List.mem_cons.mp hmem with heq | hmem'
        · cases heq
          rfl
        · exact ih tail hgo metric st hmem'
    · rw [if_neg hc] at h
      exact Except.noConfusion h

/-- C9 (amended): whenever the aggregation **returns** (it can instead raise
— see the counterexample), each returned mean is absent (NaN) iff the
metric's numeric subset is empty; a present mean lies within the subset's
min and max; and an absent mean is never the value `some 0`. -/
theorem C9_mean_absent_iff (peer_data : PeerData) (stats : PeerStats)
    (hok : calculate_peer_stats peer_data = Except.ok stats) :
    ∀ metric st, (metric, st) ∈ stats →
      ((st.mean = Option.none ↔ numericColumn peer_data metric = []) ∧
        (∀ q, st.mean = some q →
          listMin (numericColumn peer_data metric) ≤ q ∧
          q ≤ listMax (numericColumn peer_data metric)) ∧
        (st.mean = Option.none → st.mean ≠ some 0)) := by
  intro metric st hmem
  by_cases hpd : peer_data.isEmpty
  · simp only [calculate_peer_stats, if_pos hpd] at hok
    injection hok with h'
    subst h'
    simp at hmem
  · simp only [calculate_peer_stats, if_neg hpd] at hok
    have hst := peerStatsGo_mem peer_data numeric_metrics stats hok metric st hmem
    by_cases hcol : (numericColumn peer_data metric).isEmpty
    · rw [if_pos hcol] at hst
      subst hst
      have hcol' : numericColumn peer_data metric = [] := by
        simpa [List.isEmpty_iff] using hcol
      refine ⟨by simp [hcol'], ?_, ?_⟩
      · intro q hq
        exact absurd hq (by simp)
      · intro _ hq
        exact absurd hq (by simp)
    · rw [if_neg hcol] at hst
      subst hst
      have hne : numericColumn peer_data metric ≠ [] := by
        simpa [List.isEmpty_iff] using hcol
      refine ⟨?_, ?_, ?_⟩
      · constructor
        · intro h
          exact absurd h (by simp)
        · intro h
          exact absurd h hne
      · intro q hq
        injection hq with hq'
        subst hq'
        exact meanOf_bounds _ hne
      · intro h
        exact absurd h (by simp)

/-- C9 counterexample: for the peer group with one peer and no metric keys,
the numeric subset for "P/E" is empty, yet no absent mean is reported — the
aggregation raises instead of returning, so the claimed equivalence fails
on this peer group. -/
theorem C9_counterexample_no_mean_produced :
    (¬ ∃ stats, calculate_peer_stats [("MSFT", [])] = Except.ok stats) ∧
    numericColumn [("MSFT", [])] "P/E" = [] := by
  constructor
  · rintro ⟨stats, h⟩
    have he : calculate_peer_stats [("MSFT", [])] =
        Except.error "AttributeError: numpy.float64 object has no attribute empty" := rfl
    rw [he] at h
    exact Except.noConfusion h
  · rfl

/-- C9 witness: the characterisation applied to a concrete successful
aggregation over `witnessPeerGroup`. -/
theorem C9_mean_absent_iff_witness :
    calculate_peer_stats witnessPeerGroup = Except.ok witnessPeerStats ∧
    (∀ metric st, (metric, st) ∈ witnessPeerStats →
      ((st.mean = Option.none ↔ numericColumn witnessPeerGroup metric = []) ∧
        (∀ q, st.mean = some q →
          listMin (numericColumn witnessPeerGroup metric) ≤ q ∧
          q ≤ listMax (numericColumn witnessPeerGroup metric)) ∧
        (st.mean = Option.none → st.mean ≠ some 0))) := by
  have hok : calculate_peer_stats witnessPeerGroup = Except.ok witnessPeerStats := by
    simp +decide [calculate_peer_stats, peerStatsGo, hasColumn, numericColumn,
      numeric_metrics, witnessPeerGroup, witnessPeerStats, getVal, toNumeric,
      List.lookup, Except.map, meanOf, medianOf, listSum, sortList, insertSorted]
  exact ⟨hok, C9_mean_absent_iff _ _ hok⟩
